import Mathlib

/-! ZAU Single Sign-On: the OAuth callback handler.

A shallow embedding of `controllers/v1/callback.go` (function `GetCallback`
with its background provider exchange) and the properties of the callback
flow that are checked against it.

Everything outside the handler (the gorm database handle, `net/http`,
`encoding/json`, `gonanoid`, the environment) is explicit: the database is a
value of type `Store` that is passed in and returned, and the outcome of every
library call is read from an `Env` value, so that a theorem quantifying over
`Env` quantifies over every behaviour of those libraries.  Go `error` values
are strings; a `(value, error)` result is an `Except String value`.
-/

namespace SSO

set_option maxRecDepth 20000

/-! ## Data model -/

/-- The pending-login record `dbTypes.OAuthLogin` (package
`github.com/kzdv/types/database`), with the columns the handler reads or
writes.  `ID` is the primary key; `CreatedAt` is in seconds. -/
structure OAuthLogin where
  ID : Nat
  Token : String
  UserAgent : String
  RedirectURI : String
  State : String
  CID : Nat
  Code : String
  CreatedAt : Nat
deriving DecidableEq, Repr

/-- The roster record `dbTypes.User`; `CID` is its primary key. -/
structure User where
  CID : Nat
  FullName : String
deriving DecidableEq, Repr

/-- The two tables behind `models.DB`. -/
structure Store where
  logins : List OAuthLogin
  users : List User
deriving DecidableEq, Repr

/-- Source: `type Result struct { cid int; err error }`. -/
structure Result where
  cid : Int
  err : Option String
deriving DecidableEq, Repr

/-- Source: `type UserResponsePersonal struct`. -/
structure UserResponsePersonal where
  FirstName : String
  LastName : String
  FullName : String
deriving DecidableEq, Repr

/-- Source: `type UserResponse struct`. -/
structure UserResponse where
  CID : Int
  Personal : UserResponsePersonal
deriving DecidableEq, Repr

/-- Source: `type VatsimAccessToken struct`; an absent `access_token` field
decodes to the empty string. -/
structure VatsimAccessToken where
  AccessToken : String
deriving DecidableEq, Repr

/-- Source: `type VatsimResponse struct`. -/
structure VatsimResponse where
  Data : UserResponse
deriving DecidableEq, Repr

/-- What an outbound HTTP call hands back when the transport succeeded: the
status code, and what `ioutil.ReadAll` of the body yields. -/
structure HTTPResponse where
  StatusCode : Nat
  Body : Except String String

/-- An `*http.Request` as built by `http.NewRequest` (no body). -/
structure HTTPRequest where
  Method : String
  URL : String
  Header : List (String × String)
deriving DecidableEq, Repr

/-- The part of the inbound request (`c *gin.Context`) the handler and the
rendering of its redirect look at.  `Cookies` holds the values as `c.Cookie`
returns them; `Path` is `c.Request.URL.Path`. -/
structure Request where
  Query : List (String × String)
  Cookies : List (String × String)
  UserAgent : String
  Host : String
  Path : String
deriving DecidableEq, Repr

/-- The two fields of a parsed `*url.URL` that `http.Redirect` reads. -/
structure URL where
  Scheme : String
  Host : String
deriving DecidableEq, Repr

/-- The behaviour of everything the handler calls outside the repository,
during one callback. -/
structure Env where
  /-- The value of `time.Now()`, in seconds. -/
  now : Nat
  /-- The function `os.Getenv`. -/
  getenv : String → String
  /-- The call `json.Marshal(data)` on the form fields. -/
  jsonMarshal : List (String × List String) → Except String String
  /-- The call `http.Post(url, contentType, body)`. -/
  httpPost : String → String → String → Except String HTTPResponse
  /-- The call `json.Unmarshal(body, accessToken)`. -/
  unmarshalAccessToken : String → Except String VatsimAccessToken
  /-- The call `http.NewRequest(method, url, nil)`; on an error the request
  returned is nil. -/
  httpNewRequest : String → String → Except String HTTPRequest
  /-- The call `http.DefaultClient.Do(request)`. -/
  httpDo : HTTPRequest → Except String HTTPResponse
  /-- The call `json.Unmarshal(userBody, vatsimResponse)`. -/
  unmarshalVatsimResponse : String → Except String VatsimResponse
  /-- The call `gonanoid.New(n)`: the string and the error it returns. -/
  gonanoidNew : Nat → String × Option String
  /-- Whether `models.DB.Save` of this record fails. -/
  dbSaveFails : OAuthLogin → Bool
  /-- The call `url.Parse(target)` inside `http.Redirect`. -/
  urlParse : String → Except String URL
  /-- The function `path.Clean`, used by `http.Redirect` on a relative target. -/
  pathClean : String → String

/-- What the handler does that is visible outside it, in order. -/
inductive Event where
  /-- The query `models.DB.Where("token = ? AND created_at < ?", token, bound).First`. -/
  | dbFirstLogin (token : String) (bound : Nat)
  /-- A call of `handleError(c, msg)`. -/
  | handleError (msg : String)
  /-- The statement `go models.DB.Delete(login)`. -/
  | goDelete (login : OAuthLogin)
  /-- The token exchange `http.Post(url, "application/json", body)`. -/
  | tokenPost (url body : String)
  /-- The profile fetch `http.DefaultClient.Do(userRequest)`. -/
  | profileGet (request : HTTPRequest)
  /-- A send `result <- r` on the handoff channel. -/
  | chanSend (r : Result)
  /-- A run-time panic of the background goroutine. -/
  | goroutinePanic
  /-- The query `models.DB.First(&user, cid)`. -/
  | dbFirstUser (cid : Int)
  /-- The call `models.DB.Save(&login)`. -/
  | dbSave (login : OAuthLogin)
  /-- The call `c.Redirect(status, location)`. -/
  | redirect (status : Nat) (location : String)
deriving DecidableEq, Repr

/-- The response the client gets. -/
inductive Response where
  /-- The error page rendered by `handleError`. -/
  | errorPage (msg : String)
  /-- A redirect: the status code and the `Location` header that
  `http.Redirect` writes. -/
  | redirect (status : Nat) (location : String)
  /-- No response: the process went down with a goroutine panic. -/
  | crashed
deriving DecidableEq, Repr

/-- One run of the handler: the response, the events in order, and the
database afterwards. -/
structure Outcome where
  response : Response
  trace : List Event
  db : Store
deriving DecidableEq, Repr

/-- How the background goroutine ends: it has sent one `Result`, or it has
panicked before sending any. -/
inductive Delivery where
  | sent (r : Result)
  | panicked
deriving DecidableEq, Repr

/-! ## Event classes -/

/-- Reads, writes or deletes of pending-login records. -/
def Event.isLoginAccess : Event → Bool
  | .dbFirstLogin _ _ => true
  | .goDelete _ => true
  | .dbSave _ => true
  | _ => false

/-- Outbound calls to the identity provider. -/
def Event.isProviderCall : Event → Bool
  | .tokenPost _ _ => true
  | .profileGet _ => true
  | _ => false

/-- The profile fetch. -/
def Event.isProfileGet : Event → Bool
  | .profileGet _ => true
  | _ => false

/-- Roster lookups. -/
def Event.isRosterLookup : Event → Bool
  | .dbFirstUser _ => true
  | _ => false

/-- Saves of a pending-login record. -/
def Event.isSave : Event → Bool
  | .dbSave _ => true
  | _ => false

/-- Scheduled deletions of a pending-login record. -/
def Event.isDelete : Event → Bool
  | .goDelete _ => true
  | _ => false

/-- Redirects. -/
def Event.isRedirect : Event → Bool
  | .redirect _ _ => true
  | _ => false

/-- Sends on the handoff channel. -/
def Event.isSend : Event → Bool
  | .chanSend _ => true
  | _ => false

/-- Whether the response is a redirect. -/
def Response.isRedirect : Response → Bool
  | .redirect _ _ => true
  | _ => false

/-! ## Error taxonomy -/

/-- The error kinds of the specification (section 7). -/
inductive ErrorKind where
  | InvalidRequest
  | InvalidToken
  | UpstreamError
  | NotAuthorized
  | InternalFailure
deriving DecidableEq, Repr

/-- The message of the two `handleError` calls for a missing code or cookie. -/
def msgInvalidRequest : String :=
  "Invalid response received from Authenticator or Authentication cancelled."

/-- The message for a state token the lookup does not find. -/
def msgTokenInvalid : String := "Token is invalid."

/-- The message for a user-agent mismatch. -/
def msgTokenNotValid : String := "Token is not valid."

/-- The message for a failed provider exchange. -/
def msgUpstream : String :=
  "Internal Error while getting user data from VATSIM Connect"

/-- The message for an identity that is not in the roster. -/
def msgNotAuthorized : String :=
  "You are not part of our roster, so you are unable to login."

/-- The kind of each message the handler passes to `handleError`, after the
taxonomy of the specification: missing code or cookie, unknown or expired or
origin-mismatched state, provider failure, identity absent from the roster.
No message of the handler belongs to `InternalFailure`. -/
def errorKind (msg : String) : Option ErrorKind :=
  if msg = msgInvalidRequest then some .InvalidRequest
  else if msg = msgTokenInvalid ∨ msg = msgTokenNotValid then some .InvalidToken
  else if msg = msgUpstream then some .UpstreamError
  else if msg = msgNotAuthorized then some .NotAuthorized
  else none

/-- The error kind of a response, when it is an error page. -/
def Response.kind : Response → Option ErrorKind
  | .errorPage msg => errorKind msg
  | _ => none

/-! ## Library functions the handler uses -/

/-- The function `shouldEscape(c, encodeQueryComponent)` of `net/url`: every byte but
the unreserved ones (letters, digits, `-`, `_`, `.`, `~`) is escaped. -/
def shouldEscape (b : Nat) : Bool :=
  !((97 ≤ b && b ≤ 122) || (65 ≤ b && b ≤ 90) || (48 ≤ b && b ≤ 57)
    || b == 45 || b == 95 || b == 46 || b == 126)

/-- The digit table `upperhex` of `net/url`. -/
def upperhex (n : Nat) : Char := "0123456789ABCDEF".toList.getD n '0'

/-- One byte of `url.QueryEscape`: a space becomes `+`, an escaped byte `%XX`. -/
def escapeByte (b : Nat) : List Char :=
  if b = 32 then ['+']
  else if shouldEscape b then ['%', upperhex (b / 16), upperhex (b % 16)]
  else [Char.ofNat b]

/-- The function `url.QueryEscape`, over the UTF-8 bytes of the string. -/
def QueryEscape (s : String) : String :=
  String.mk ((s.toList.flatMap fun c => (String.utf8EncodeChar c).map UInt8.toNat).flatMap escapeByte)

/-- The digits of `strconv.AppendInt` in base 16. -/
def lowerhex (n : Nat) : Char := "0123456789abcdef".toList.getD n '0'

/-- The function `hexEscapeNonASCII` of `net/http`: every byte from 128 up
becomes `%` and its two hexadecimal digits; the other bytes stay.  A
character below 128 is its own single byte, and all bytes of any other
character are 128 or more. -/
def hexEscapeNonASCII (s : String) : String :=
  String.mk (s.toList.flatMap fun ch =>
    if ch.toNat < 128 then [ch]
    else (String.utf8EncodeChar ch).flatMap fun b =>
      ['%', lowerhex (b.toNat / 16), lowerhex (b.toNat % 16)])

/-- The directory part of `path.Split`: the path up to and including its
last slash, empty when it has none. -/
def pathSplitDir (p : String) : String :=
  String.mk (p.toList.reverse.dropWhile fun ch => ch ≠ '/').reverse

/-- Whether the string ends in a slash (`strings.HasSuffix(url, "/")`). -/
def hasSlashSuffix (s : String) : Bool :=
  s.toList.getLast? = some '/'

/-- The function `http.Redirect(w, r, url, code)` as far as the `Location`
header goes: a target that parses without scheme and host is made absolute
with the directory of the request path, cleaned with its trailing slash and
query kept; then the non-ASCII bytes are escaped. -/
def httpRedirect (env : Env) (c : Request) (url : String) : String :=
  let url :=
    match env.urlParse url with
    | .error _ => url
    | .ok u =>
      if u.Scheme = "" ∧ u.Host = "" then
        let oldpath := if c.Path = "" then "/" else c.Path
        let url :=
          if url = "" ∨ url.toList.head? ≠ some '/' then pathSplitDir oldpath ++ url else url
        let parts := url.toList.span fun ch => ch ≠ '?'
        let url := String.mk parts.1
        let query := String.mk parts.2
        let trailing := hasSlashSuffix url
        let url := env.pathClean url
        let url := if trailing ∧ ¬ hasSlashSuffix url then url ++ "/" else url
        url ++ query
      else url
  hexEscapeNonASCII url

/-- The type `url.Values`: keys with their lists of values. -/
abbrev Values := List (String × List String)

/-- The method `url.Values.Set`: the key gets the single value, replacing what
it had. -/
def Values.Set (v : Values) (key value : String) : Values :=
  if v.any (fun p => p.1 = key) then
    v.map fun p => if p.1 = key then (key, [value]) else p
  else v ++ [(key, [value])]

/-- The method `gin.Context.GetQuery`: the first value of the key, if any. -/
def Request.GetQuery (c : Request) (key : String) : Option String :=
  c.Query.lookup key

/-- The method `gin.Context.Cookie`: the named cookie, or an error (here
`none`) when the request has none of that name. -/
def Request.Cookie (c : Request) (name : String) : Option String :=
  c.Cookies.lookup name

/-- The constant `time.Minute`, in seconds. -/
def Minute : Nat := 60

/-! ## Database operations -/

/-- The record with the least primary key (the `ORDER BY id LIMIT 1` of
`First`). -/
def firstByID : List OAuthLogin → Option OAuthLogin
  | [] => none
  | l :: ls =>
    match firstByID ls with
    | none => some l
    | some m => if l.ID ≤ m.ID then some l else some m

/-- The query `models.DB.Where("token = ? AND created_at < ?", token, bound).First(&login)`;
`none` is a non-nil `.Error`. -/
def Store.firstLogin (db : Store) (token : String) (bound : Nat) : Option OAuthLogin :=
  firstByID (db.logins.filter fun l => l.Token = token ∧ l.CreatedAt < bound)

/-- The query `models.DB.First(&user, cid)`: the user whose primary key is
`cid`; `none` is a non-nil `.Error`. -/
def Store.firstUser (db : Store) (cid : Int) : Option User :=
  db.users.find? fun u => (u.CID : Int) = cid

/-- The statement `models.DB.Save(&login)`: all columns of the row with the
record's primary key are written (the row is inserted when there is none);
a failed save leaves the table as it was. -/
def Store.save (env : Env) (db : Store) (login : OAuthLogin) : Store :=
  if env.dbSaveFails login then db
  else if db.logins.any (fun l => l.ID = login.ID) then
    { db with logins := db.logins.map fun l => if l.ID = login.ID then login else l }
  else { db with logins := db.logins ++ [login] }

/-! ## The handler -/

/-- Modelled from the spec: the helper `handleError(c, msg)` of package `v1`,
which is defined outside `callback.go`.  By sections 4.1 and 6 it renders an
error page (not a 302) carrying the user-facing message, and does nothing
else. -/
def handleError (db : Store) (trace : List Event) (msg : String) : Outcome :=
  { response := .errorPage msg, trace := trace ++ [.handleError msg], db := db }

/-- The value `returnUri` of the handler (source lines 88 and 89): the scheme
is always `https`, the host is the request's. -/
def returnUri (c : Request) : String :=
  let scheme := "https"
  QueryEscape (scheme ++ "://" ++ c.Host ++ "/oauth/callback")

/-- The value `tokenUrl` of the goroutine (source line 93). -/
def tokenUrl (env : Env) : String :=
  env.getenv "VATSIM_BASE_URL" ++ env.getenv "VATSIM_TOKEN_PATH"

/-- The form fields `data` of the token exchange (source lines 95 to 100). -/
def formData (env : Env) (code returnUri : String) : Values :=
  let data : Values := []
  let data := data.Set "grant_type" "authorization_code"
  let data := data.Set "code" code
  let data := data.Set "redirect_uri" returnUri
  let data := data.Set "client_id" (env.getenv "VATSIM_OAUTH_CLIENT_ID")
  let data := data.Set "client_secret" (env.getenv "VATSIM_OAUTH_CLIENT_SECRET")
  data

/-- The address the profile request is built for (source line 130). -/
def userUrl (env : Env) : String :=
  env.getenv "VATSIM_BASE_URL" ++ env.getenv "VATSIM_USER_PATH"

/-- One send on the handoff channel followed by `return`. -/
def send (trace : List Event) (r : Result) : Delivery × List Event :=
  (.sent r, trace ++ [.chanSend r])

/-- The background goroutine of `GetCallback` (source lines 92 to 156): the
token exchange followed by the profile fetch.  It returns how the goroutine
ended and the events it produced. -/
def exchange (env : Env) (code returnUri : String) : Delivery × List Event :=
  let tokenUrl := tokenUrl env
  let data := formData env code returnUri
  match env.jsonMarshal data with
  | .error err => send [] { cid := 0, err := some err }
  | .ok json_data =>
  let tr := [Event.tokenPost tokenUrl json_data]
  match env.httpPost tokenUrl "application/json" json_data with
  | .error err => send tr { cid := 0, err := some err }
  | .ok request =>
  match request.Body with
  | .error err => send tr { cid := 0, err := some err }
  | .ok body =>
  match env.unmarshalAccessToken body with
  | .error err => send tr { cid := 0, err := some err }
  | .ok accessToken =>
  if accessToken.AccessToken = "" then
    send tr { cid := 0, err := some "No access token received" }
  else
  match env.httpNewRequest "GET" (userUrl env) with
  | .error _ =>
    -- line 131 calls `userRequest.Header.Add` on the nil request before
    -- line 132 looks at `err`
    (.panicked, tr ++ [.goroutinePanic])
  | .ok userRequest =>
  let userRequest := { userRequest with
    Header := userRequest.Header ++ [("Authorization", "Bearer " ++ accessToken.AccessToken)] }
  let tr := tr ++ [.profileGet userRequest]
  match env.httpDo userRequest with
  | .error err => send tr { cid := 0, err := some err }
  | .ok userResponse =>
  match userResponse.Body with
  | .error err => send tr { cid := 0, err := some err }
  | .ok userBody =>
  match env.unmarshalVatsimResponse userBody with
  | .error err => send tr { cid := 0, err := some err }
  | .ok vatsimResponse => send tr { cid := vatsimResponse.Data.CID, err := none }

/-- The handler `GetCallback` (source lines 62 to 176), run on the database
`db` for the request `c`. -/
def GetCallback (env : Env) (db : Store) (c : Request) : Outcome :=
  match c.GetQuery "code" with
  | none => handleError db [] msgInvalidRequest
  | some code =>
  match c.Cookie "sso_token" with
  | none => handleError db [] msgInvalidRequest
  | some cstate =>
  let bound := env.now + Minute * 5
  let tr := [Event.dbFirstLogin cstate bound]
  match db.firstLogin cstate bound with
  | none => handleError db tr msgTokenInvalid
  | some login =>
  if login.UserAgent ≠ c.UserAgent then
    let out := handleError db tr msgTokenNotValid
    { out with trace := out.trace ++ [.goDelete login] }
  else
  match exchange env code (returnUri c) with
  | (.panicked, evs) => { response := .crashed, trace := tr ++ evs, db := db }
  | (.sent userResult, evs) =>
  let tr := tr ++ evs
  if userResult.err ≠ none then handleError db tr msgUpstream
  else
  let tr := tr ++ [.dbFirstUser userResult.cid]
  match db.firstUser userResult.cid with
  | none => handleError db tr msgNotAuthorized
  | some user =>
  let login := { login with CID := user.CID }
  let login := { login with Code := (env.gonanoidNew 32).1 }
  let tr := tr ++ [.dbSave login]
  let db := db.save env login
  let location := login.RedirectURI ++ "?code=" ++ login.Code ++ "&state=" ++ login.State
  -- `c.Redirect` renders through `http.Redirect`
  { response := .redirect 302 (httpRedirect env c location),
    trace := tr ++ [.redirect 302 location], db := db }

/-- The environment `env` with the status code of every token response
changed by `f` and of every profile response changed by `g`; bodies and
everything else are as in `env`. -/
def Env.withStatuses (env : Env) (f g : Nat → Nat) : Env :=
  { env with
    httpPost := fun u t b =>
      match env.httpPost u t b with
      | .error err => .error err
      | .ok r => .ok { r with StatusCode := f r.StatusCode }
    httpDo := fun q =>
      match env.httpDo q with
      | .error err => .error err
      | .ok r => .ok { r with StatusCode := g r.StatusCode } }

/-- Whether a status code is a 2xx one. -/
def is2xx (status : Nat) : Bool := 200 ≤ status && status < 300

/-! ## A concrete deployment, for evaluation -/

/-- A pending login created at second 1000 for a browser `Mozilla/5.0`. -/
def login0 : OAuthLogin :=
  { ID := 1, Token := "tok-1", UserAgent := "Mozilla/5.0",
    RedirectURI := "https://app.example.org/login", State := "xyz",
    CID := 0, Code := "", CreatedAt := 1000 }

/-- A roster with one controller, CID 1234567. -/
def db0 : Store :=
  { logins := [login0], users := [{ CID := 1234567, FullName := "Pat Doe" }] }

/-- The callback request of that browser. -/
def req0 : Request :=
  { Query := [("code", "authcode")], Cookies := [("sso_token", "tok-1")],
    UserAgent := "Mozilla/5.0", Host := "sso.example.org", Path := "/oauth/callback" }

/-- A 32-character code. -/
def code32 : String := "0123456789abcdefghijklmnopqrstuv"

/-- Another 32-character code. -/
def code32b : String := "ABCDEFGHIJKLMNOPQRSTUVWXYZ_-0123"

/-- The configuration of the provider endpoints. -/
def getenv0 : String → String := fun k =>
  if k = "VATSIM_BASE_URL" then "https://auth.vatsim.net"
  else if k = "VATSIM_TOKEN_PATH" then "/oauth/token"
  else if k = "VATSIM_USER_PATH" then "/api/user"
  else if k = "VATSIM_OAUTH_CLIENT_ID" then "42"
  else if k = "VATSIM_OAUTH_CLIENT_SECRET" then "s3cret"
  else ""

/-- A working provider and database, 100 seconds after `login0` was created:
the token exchange answers 200 with the access token `at-1`, the profile
fetch answers 200 with CID 1234567.  Redirect targets are absolute `https`
addresses of `app.example.org` without dot segments, which `url.Parse` reads
as such and `path.Clean` would leave alone. -/
def env0 : Env :=
  { now := 1100
    getenv := getenv0
    jsonMarshal := fun _ => .ok "form"
    httpPost := fun _ _ _ => .ok { StatusCode := 200, Body := .ok "token-json" }
    unmarshalAccessToken := fun _ => .ok { AccessToken := "at-1" }
    httpNewRequest := fun m u => .ok { Method := m, URL := u, Header := [] }
    httpDo := fun _ => .ok { StatusCode := 200, Body := .ok "user-json" }
    unmarshalVatsimResponse := fun _ =>
      .ok { Data := { CID := 1234567, Personal := { FirstName := "Pat", LastName := "Doe", FullName := "Pat Doe" } } }
    gonanoidNew := fun _ => (code32, none)
    dbSaveFails := fun _ => false
    urlParse := fun _ => .ok { Scheme := "https", Host := "app.example.org" }
    pathClean := fun p => p }

/-! ## Variations of the deployment -/

/-- A provider that confirms CID 7654321, which is not in the roster. -/
def envStranger : Env :=
  { env0 with
    unmarshalVatsimResponse := fun _ =>
      Except.ok ⟨⟨7654321, ⟨"Sam", "Roe", "Sam Roe"⟩⟩⟩ }

/-- The deployment `env0` with a failing code generator: `gonanoid.New`
returns the empty string and an error. -/
def envNoCode : Env :=
  { env0 with gonanoidNew := fun _ => ("", some "gonanoid: entropy source failed") }

/-- A provider whose token response carries no `access_token`. -/
def envNoToken : Env :=
  { env0 with unmarshalAccessToken := fun _ => Except.ok ⟨""⟩ }

/-- A provider whose token endpoint answers 502 with a body that is not JSON. -/
def envBadGateway : Env :=
  { env0 with
    httpPost := fun _ _ _ => .ok { StatusCode := 502, Body := .ok "<html>Bad Gateway</html>" }
    unmarshalAccessToken := fun _ => .error "invalid character looking for beginning of value" }

/-- The 401 answer of the profile endpoint to a rejected bearer token; its
body is a JSON object without a `data` field. -/
def resp401 : HTTPResponse :=
  { StatusCode := 401, Body := .ok "unauthenticated-json" }

/-- A provider whose profile endpoint answers `resp401`; the body decodes
without error to the zero `VatsimResponse`. -/
def env401 : Env :=
  { env0 with
    httpDo := fun _ => .ok resp401
    unmarshalVatsimResponse := fun _ => Except.ok ⟨⟨0, ⟨"", "", ""⟩⟩⟩ }

/-- The 500 answer of a token endpoint whose body still carries a token. -/
def resp500 : HTTPResponse :=
  { StatusCode := 500, Body := .ok "token-json" }

/-- A provider whose token endpoint answers `resp500`. -/
def env500 : Env :=
  { env0 with httpPost := fun _ _ _ => .ok resp500 }

/-- The profile request the goroutine builds in the deployment `env0`. -/
def profileRequest0 : HTTPRequest :=
  { Method := "GET", URL := "https://auth.vatsim.net/api/user",
    Header := [("Authorization", "Bearer at-1")] }

/-- The deployment `env0` one day after `login0` was created. -/
def envLate : Env := { env0 with now := 1000 + 86400 }

/-- The deployment `env0` thirty seconds later, with the next code of the
generator. -/
def envReplay : Env :=
  { env0 with now := 1130, gonanoidNew := fun _ => (code32b, none) }

/-- The deployment `env0` with a database that rejects the save. -/
def envSaveFails : Env := { env0 with dbSaveFails := fun _ => true }

/-- The deployment `env0` with a user path that is not a valid URL path:
`http.NewRequest` rejects the address with a parse error. -/
def envBadUserPath : Env :=
  { env0 with
    getenv := fun k => if k = "VATSIM_USER_PATH" then "/%zz" else getenv0 k
    httpNewRequest := fun m u =>
      if u = "https://auth.vatsim.net/%zz" then .error "parse: invalid URL escape"
      else .ok { Method := m, URL := u, Header := [] } }

/-- A store whose pending login carries a redirect address with a non-ASCII
letter. -/
def dbAccent : Store :=
  { db0 with logins := [{ login0 with RedirectURI := "https://app.example.org/café" }] }

/-- A store whose pending login carries the relative redirect address
`login`. -/
def dbRelative : Store :=
  { db0 with logins := [{ login0 with RedirectURI := "login" }] }

/-- The deployment `env0` for relative redirect targets: `url.Parse` finds
neither scheme nor host in them. -/
def envRelative : Env :=
  { env0 with urlParse := fun _ => .ok { Scheme := "", Host := "" } }

/-! ## Lemmas on the database queries -/

theorem firstByID_eq_none_iff (ls : List OAuthLogin) : firstByID ls = none ↔ ls = [] := by
  cases ls with
  | nil => simp [firstByID]
  | cons l ls =>
    simp only [firstByID]
    cases firstByID ls with
    | none => simp
    | some m => by_cases h : l.ID ≤ m.ID <;> simp [h]

theorem firstByID_mem {ls : List OAuthLogin} {m : OAuthLogin} (h : firstByID ls = some m) :
    m ∈ ls := by
  induction ls generalizing m with
  | nil => simp [firstByID] at h
  | cons l ls ih =>
    simp only [firstByID] at h
    cases hr : firstByID ls with
    | none =>
      rw [hr] at h
      simp only [Option.some.injEq] at h
      simp [h]
    | some k =>
      rw [hr] at h
      by_cases hle : l.ID ≤ k.ID
      · simp only [hle, if_true, Option.some.injEq] at h
        simp [h]
      · simp only [hle, if_false, Option.some.injEq] at h
        subst h
        exact List.mem_cons_of_mem _ (ih hr)

/-- A record the login query returns is a row of the table with the token
asked for, created before the bound. -/
theorem firstLogin_spec {db : Store} {token : String} {bound : Nat} {login : OAuthLogin}
    (h : db.firstLogin token bound = some login) :
    login ∈ db.logins ∧ login.Token = token ∧ login.CreatedAt < bound := by
  have hm := firstByID_mem h
  simpa [List.mem_filter] using hm

/-- The login query finds nothing exactly when no row has the token and a
creation time before the bound. -/
theorem firstLogin_eq_none_iff (db : Store) (token : String) (bound : Nat) :
    db.firstLogin token bound = none ↔
      ∀ l ∈ db.logins, l.Token = token → ¬ l.CreatedAt < bound := by
  simp [Store.firstLogin, firstByID_eq_none_iff, List.filter_eq_nil_iff]

/-! ## The kinds of the handler's messages -/

theorem kind_invalidRequest :
    (Response.errorPage msgInvalidRequest).kind = some .InvalidRequest := by decide

theorem kind_tokenInvalid :
    (Response.errorPage msgTokenInvalid).kind = some .InvalidToken := by decide

theorem kind_tokenNotValid :
    (Response.errorPage msgTokenNotValid).kind = some .InvalidToken := by decide

theorem kind_upstream :
    (Response.errorPage msgUpstream).kind = some .UpstreamError := by decide

theorem kind_notAuthorized :
    (Response.errorPage msgNotAuthorized).kind = some .NotAuthorized := by decide

/-! ## Missing code or cookie -/

/-- Claim C4.  A callback without the `code` query parameter or without the
`sso_token` cookie gets the InvalidRequest error page; the only event of the
run is that `handleError` call, so no pending-login record is read, saved or
deleted, no provider call is made and the roster is not consulted, and the
database is returned as it was. -/
theorem C4_missing_code_or_cookie (env : Env) (db : Store) (c : Request)
    (h : c.GetQuery "code" = none ∨ c.Cookie "sso_token" = none) :
    (GetCallback env db c).response = .errorPage msgInvalidRequest
    ∧ (GetCallback env db c).response.kind = some .InvalidRequest
    ∧ (GetCallback env db c).trace = [.handleError msgInvalidRequest]
    ∧ (∀ e ∈ (GetCallback env db c).trace,
        e.isLoginAccess = false ∧ e.isProviderCall = false ∧ e.isRosterLookup = false)
    ∧ (GetCallback env db c).db = db := by
  have hout : GetCallback env db c = handleError db [] msgInvalidRequest := by
    unfold GetCallback
    rcases h with h | h
    · rw [h]
    · rw [h]
      cases c.GetQuery "code" <;> rfl
  rw [hout]
  refine ⟨rfl, kind_invalidRequest, rfl, ?_, rfl⟩
  intro e he
  simp only [handleError, List.nil_append, List.mem_singleton] at he
  subst he
  exact ⟨rfl, rfl, rfl⟩

/-- Claim C4 at a request that carries the code but no cookie. -/
theorem C4_missing_code_or_cookie_witness :
    (GetCallback env0 db0 { req0 with Cookies := [] }).response = .errorPage msgInvalidRequest
    ∧ (GetCallback env0 db0 { req0 with Cookies := [] }).response.kind = some .InvalidRequest
    ∧ (GetCallback env0 db0 { req0 with Cookies := [] }).trace = [.handleError msgInvalidRequest]
    ∧ (∀ e ∈ (GetCallback env0 db0 { req0 with Cookies := [] }).trace,
        e.isLoginAccess = false ∧ e.isProviderCall = false ∧ e.isRosterLookup = false)
    ∧ (GetCallback env0 db0 { req0 with Cookies := [] }).db = db0 :=
  C4_missing_code_or_cookie env0 db0 { req0 with Cookies := [] } (Or.inr (by decide))

/-! ## User-agent mismatch -/

/-- Claim C5.  When the state token of the cookie resolves to a pending-login
record whose stored user-agent differs from the request's, the response is the
InvalidToken error page, the run consists of the lookup, the `handleError`
call and one scheduled deletion of that record, in this order: the deletion
is scheduled exactly once and there is no provider call, roster lookup, save
or redirect. -/
theorem C5_user_agent_mismatch (env : Env) (db : Store) (c : Request)
    (code cstate : String) (login : OAuthLogin)
    (hcode : c.GetQuery "code" = some code)
    (hcookie : c.Cookie "sso_token" = some cstate)
    (hfind : db.firstLogin cstate (env.now + Minute * 5) = some login)
    (hua : login.UserAgent ≠ c.UserAgent) :
    (GetCallback env db c).response = .errorPage msgTokenNotValid
    ∧ (GetCallback env db c).response.kind = some .InvalidToken
    ∧ (GetCallback env db c).trace =
        [.dbFirstLogin cstate (env.now + Minute * 5), .handleError msgTokenNotValid,
         .goDelete login]
    ∧ (GetCallback env db c).trace.countP Event.isDelete = 1
    ∧ (∀ e ∈ (GetCallback env db c).trace,
        e.isProviderCall = false ∧ e.isRosterLookup = false ∧ e.isSave = false
        ∧ e.isRedirect = false) := by
  have hout : GetCallback env db c =
      { response := .errorPage msgTokenNotValid,
        trace := [.dbFirstLogin cstate (env.now + Minute * 5), .handleError msgTokenNotValid,
                  .goDelete login],
        db := db } := by
    unfold GetCallback
    simp [hcode, hcookie, hfind, hua, handleError]
  rw [hout]
  refine ⟨rfl, kind_tokenNotValid, rfl, rfl, ?_⟩
  intro e he
  simp only [List.mem_cons, List.mem_singleton, List.not_mem_nil, or_false] at he
  rcases he with he | he | he <;> subst he <;> exact ⟨rfl, rfl, rfl, rfl⟩

/-- Claim C5 at the stored login, called back from another browser. -/
theorem C5_user_agent_mismatch_witness :
    (GetCallback env0 db0 { req0 with UserAgent := "curl/8.0" }).response
        = .errorPage msgTokenNotValid
    ∧ (GetCallback env0 db0 { req0 with UserAgent := "curl/8.0" }).response.kind
        = some .InvalidToken
    ∧ (GetCallback env0 db0 { req0 with UserAgent := "curl/8.0" }).trace =
        [.dbFirstLogin "tok-1" (env0.now + Minute * 5), .handleError msgTokenNotValid,
         .goDelete login0]
    ∧ (GetCallback env0 db0 { req0 with UserAgent := "curl/8.0" }).trace.countP Event.isDelete = 1
    ∧ (∀ e ∈ (GetCallback env0 db0 { req0 with UserAgent := "curl/8.0" }).trace,
        e.isProviderCall = false ∧ e.isRosterLookup = false ∧ e.isSave = false
        ∧ e.isRedirect = false) :=
  C5_user_agent_mismatch env0 db0 { req0 with UserAgent := "curl/8.0" } "authcode" "tok-1" login0
    (by decide) (by decide) (by decide) (by decide)

/-! ## The events of the provider exchange -/

/-- The background goroutine touches neither table and does not answer the
client: its events are provider calls, channel sends and panics only. -/
theorem exchange_events (env : Env) (code uri : String) :
    ∀ e ∈ (exchange env code uri).2,
      e.isLoginAccess = false ∧ e.isRosterLookup = false ∧ e.isSave = false
      ∧ e.isRedirect = false ∧ e.isDelete = false := by
  have hall : ((exchange env code uri).2.all fun e =>
      !e.isLoginAccess && !e.isRosterLookup && !e.isSave && !e.isRedirect && !e.isDelete)
      = true := by
    unfold exchange
    simp only []
    repeat' split
    all_goals rfl
  intro e he
  have h := List.all_eq_true.mp hall e he
  simp only [Bool.and_eq_true, Bool.not_eq_true', and_assoc] at h
  exact h

/-- The handler on a validated callback (code and cookie present, record
found, user-agent equal), in terms of what the provider exchange delivers. -/
theorem GetCallback_validated (env : Env) (db : Store) (c : Request)
    (code cstate : String) (login : OAuthLogin)
    (hcode : c.GetQuery "code" = some code)
    (hcookie : c.Cookie "sso_token" = some cstate)
    (hfind : db.firstLogin cstate (env.now + Minute * 5) = some login)
    (hua : login.UserAgent = c.UserAgent) :
    GetCallback env db c =
      match exchange env code (returnUri c) with
      | (.panicked, evs) =>
        { response := .crashed,
          trace := [.dbFirstLogin cstate (env.now + Minute * 5)] ++ evs, db := db }
      | (.sent userResult, evs) =>
        if userResult.err ≠ none then
          handleError db ([.dbFirstLogin cstate (env.now + Minute * 5)] ++ evs) msgUpstream
        else
          match db.firstUser userResult.cid with
          | none =>
            handleError db
              ([.dbFirstLogin cstate (env.now + Minute * 5)] ++ evs
                ++ [.dbFirstUser userResult.cid]) msgNotAuthorized
          | some user =>
            { response := .redirect 302
                (httpRedirect env c
                  (login.RedirectURI ++ "?code=" ++ (env.gonanoidNew 32).1 ++ "&state="
                    ++ login.State)),
              trace := [.dbFirstLogin cstate (env.now + Minute * 5)] ++ evs
                ++ [.dbFirstUser userResult.cid]
                ++ [.dbSave { login with CID := user.CID, Code := (env.gonanoidNew 32).1 }]
                ++ [.redirect 302
                  (login.RedirectURI ++ "?code=" ++ (env.gonanoidNew 32).1 ++ "&state="
                    ++ login.State)],
              db := db.save env { login with CID := user.CID, Code := (env.gonanoidNew 32).1 } } := by
  unfold GetCallback
  simp only [hcode, hcookie, hfind, hua, ne_eq, not_true_eq_false, if_false]

/-! ## Identity absent from the roster -/

/-- Claim C9.  On a validated callback whose provider exchange delivers the
external ID `cid` without error, if the roster lookup of `cid` finds nothing
the response is the NotAuthorized error page and the database is returned
unchanged (no resolved user ID, no one-time code written): the run has no
save, no deletion and no redirect, and ends with the roster lookup and the
`handleError` call. -/
theorem C9_not_in_roster (env : Env) (db : Store) (c : Request)
    (code cstate : String) (login : OAuthLogin) (cid : Int)
    (hcode : c.GetQuery "code" = some code)
    (hcookie : c.Cookie "sso_token" = some cstate)
    (hfind : db.firstLogin cstate (env.now + Minute * 5) = some login)
    (hua : login.UserAgent = c.UserAgent)
    (hex : (exchange env code (returnUri c)).1 = .sent { cid := cid, err := none })
    (hroster : db.firstUser cid = none) :
    (GetCallback env db c).response = .errorPage msgNotAuthorized
    ∧ (GetCallback env db c).response.kind = some .NotAuthorized
    ∧ (GetCallback env db c).db = db
    ∧ (GetCallback env db c).trace =
        [.dbFirstLogin cstate (env.now + Minute * 5)] ++ (exchange env code (returnUri c)).2
          ++ [.dbFirstUser cid, .handleError msgNotAuthorized]
    ∧ (∀ e ∈ (GetCallback env db c).trace,
        e.isSave = false ∧ e.isDelete = false ∧ e.isRedirect = false) := by
  have hev := exchange_events env code (returnUri c)
  have hout := GetCallback_validated env db c code cstate login hcode hcookie hfind hua
  rcases hx : exchange env code (returnUri c) with ⟨d, evs⟩
  rw [hx] at hex hev
  simp only at hex hev
  subst hex
  rw [hx] at hout
  simp only [ne_eq, not_true_eq_false, if_false, hroster, handleError] at hout
  rw [hout]
  refine ⟨rfl, kind_notAuthorized, rfl, by simp, ?_⟩
  intro e he
  simp only [List.mem_append, List.mem_cons, List.mem_singleton, List.not_mem_nil,
    or_false] at he
  rcases he with ((he | he) | he) | he
  · subst he; exact ⟨rfl, rfl, rfl⟩
  · obtain ⟨-, -, h3, h4, h5⟩ := hev e he
    exact ⟨h3, h5, h4⟩
  · subst he; exact ⟨rfl, rfl, rfl⟩
  · subst he; exact ⟨rfl, rfl, rfl⟩

/-- Claim C9 at a confirmed identity that the roster does not hold. -/
theorem C9_not_in_roster_witness :
    (GetCallback envStranger db0 req0).response = .errorPage msgNotAuthorized
    ∧ (GetCallback envStranger db0 req0).response.kind = some .NotAuthorized
    ∧ (GetCallback envStranger db0 req0).db = db0
    ∧ (GetCallback envStranger db0 req0).trace =
        [.dbFirstLogin "tok-1" (envStranger.now + Minute * 5)]
          ++ (exchange envStranger "authcode" (returnUri req0)).2
          ++ [.dbFirstUser 7654321, .handleError msgNotAuthorized]
    ∧ (∀ e ∈ (GetCallback envStranger db0 req0).trace,
        e.isSave = false ∧ e.isDelete = false ∧ e.isRedirect = false) :=
  C9_not_in_roster envStranger db0 req0 "authcode" "tok-1" login0 7654321
    (by decide) (by decide) (by decide) (by decide) (by decide) (by decide)

/-! ## Finalization -/

/-- A save that does not fail, of a record whose primary key is in the table,
leaves the saved record in the table. -/
theorem save_mem (env : Env) (db : Store) (old new : OAuthLogin)
    (hmem : old ∈ db.logins) (hid : new.ID = old.ID) (hok : env.dbSaveFails new = false) :
    new ∈ (db.save env new).logins := by
  have hany : (db.logins.any fun l => decide (l.ID = new.ID)) = true :=
    List.any_eq_true.mpr ⟨old, hmem, by simp [hid]⟩
  unfold Store.save
  simp only [hok, Bool.false_eq_true, if_false, hany, if_true]
  exact List.mem_map.mpr ⟨old, hmem, by simp [hid]⟩

/-- A string of ASCII characters has nothing to escape. -/
theorem hexEscapeNonASCII_ascii (s : String) (h : ∀ ch ∈ s.toList, ch.toNat < 128) :
    hexEscapeNonASCII s = s := by
  have hl : ∀ l : List Char, (∀ ch ∈ l, ch.toNat < 128) →
      (l.flatMap fun ch =>
        if ch.toNat < 128 then [ch]
        else (String.utf8EncodeChar ch).flatMap fun b =>
          ['%', lowerhex (b.toNat / 16), lowerhex (b.toNat % 16)]) = l := by
    intro l
    induction l with
    | nil => intro _; rfl
    | cons a t ih =>
      intro hall
      have ha : a.toNat < 128 := hall a (List.mem_cons_self a t)
      have ht := ih fun ch hch => hall ch (List.mem_cons_of_mem a hch)
      simp only [List.flatMap_cons, ha, if_true, ht, List.singleton_append]
  unfold hexEscapeNonASCII
  rw [hl s.toList h]
  rfl

/-- The `Location` header is the target itself when the target is ASCII and
`url.Parse` either rejects it or finds a scheme or a host in it. -/
theorem httpRedirect_absolute_ascii (env : Env) (c : Request) (url : String)
    (habs : ∀ u, env.urlParse url = .ok u → u.Scheme ≠ "" ∨ u.Host ≠ "")
    (hascii : ∀ ch ∈ url.toList, ch.toNat < 128) :
    httpRedirect env c url = url := by
  unfold httpRedirect
  cases hp : env.urlParse url with
  | error e => exact hexEscapeNonASCII_ascii url hascii
  | ok u =>
    have hnot : ¬ (u.Scheme = "" ∧ u.Host = "") := by
      rintro ⟨h1, h2⟩
      rcases habs u hp with h | h
      · exact h h1
      · exact h h2
    simp only [hnot, if_false]
    exact hexEscapeNonASCII_ascii url hascii

/-- Claim C1, amended.  On a validated callback whose provider exchange
delivers the external ID `cid` without error and whose roster lookup finds
`user`, if `gonanoid.New(32)` succeeds with the 32-character code `otc` and
the save does not fail: the record is saved exactly once (one `Save`, after
which the table holds the stored record with `CID` set to the roster user's
and `Code` set to `otc`), `c.Redirect` is called once, with status 302 and
the target made of the stored `RedirectURI`, `?code=`, `otc`, `&state=` and
the stored `State`, nothing of the request entering that target; the
response is the 302 whose `Location` is what `http.Redirect` renders from
that target, and it is the target itself, byte for byte, when the target is
ASCII and has a scheme or a host. -/
theorem C1_success_redirect (env : Env) (db : Store) (c : Request)
    (code cstate otc : String) (login : OAuthLogin) (cid : Int) (user : User)
    (hcode : c.GetQuery "code" = some code)
    (hcookie : c.Cookie "sso_token" = some cstate)
    (hfind : db.firstLogin cstate (env.now + Minute * 5) = some login)
    (hua : login.UserAgent = c.UserAgent)
    (hex : (exchange env code (returnUri c)).1 = .sent { cid := cid, err := none })
    (hroster : db.firstUser cid = some user)
    (hgen : env.gonanoidNew 32 = (otc, none))
    (hlen : otc.length = 32)
    (hsave : env.dbSaveFails { login with CID := user.CID, Code := otc } = false) :
    (GetCallback env db c).trace.filter Event.isSave =
        [.dbSave { login with CID := user.CID, Code := otc }]
    ∧ ({ login with CID := user.CID, Code := otc } : OAuthLogin).Code.length = 32
    ∧ (GetCallback env db c).db = db.save env { login with CID := user.CID, Code := otc }
    ∧ { login with CID := user.CID, Code := otc } ∈ (GetCallback env db c).db.logins
    ∧ (GetCallback env db c).trace.filter Event.isRedirect =
        [.redirect 302 (login.RedirectURI ++ "?code=" ++ otc ++ "&state=" ++ login.State)]
    ∧ (GetCallback env db c).response =
        .redirect 302 (httpRedirect env c
          (login.RedirectURI ++ "?code=" ++ otc ++ "&state=" ++ login.State))
    ∧ ((∀ u, env.urlParse (login.RedirectURI ++ "?code=" ++ otc ++ "&state=" ++ login.State)
            = .ok u → u.Scheme ≠ "" ∨ u.Host ≠ "") →
        (∀ ch ∈ (login.RedirectURI ++ "?code=" ++ otc ++ "&state=" ++ login.State).toList,
            ch.toNat < 128) →
        (GetCallback env db c).response =
          .redirect 302 (login.RedirectURI ++ "?code=" ++ otc ++ "&state=" ++ login.State)) := by
  have hev := exchange_events env code (returnUri c)
  have hout := GetCallback_validated env db c code cstate login hcode hcookie hfind hua
  rcases hx : exchange env code (returnUri c) with ⟨d, evs⟩
  rw [hx] at hex hev
  simp only at hex hev
  subst hex
  rw [hx] at hout
  simp only [ne_eq, not_true_eq_false, if_false, hroster, hgen] at hout
  have hsv : evs.filter Event.isSave = [] :=
    List.filter_eq_nil_iff.mpr fun e he => by simp [(hev e he).2.2.1]
  have hredir : evs.filter Event.isRedirect = [] :=
    List.filter_eq_nil_iff.mpr fun e he => by simp [(hev e he).2.2.2.1]
  rw [hout]
  refine ⟨?_, hlen, rfl, ?_, ?_, rfl, ?_⟩
  · simp [List.filter_append, hsv, List.filter_cons, Event.isSave]
  · exact save_mem env db login _ (firstLogin_spec hfind).1 rfl hsave
  · simp [List.filter_append, hredir, List.filter_cons, Event.isRedirect]
  · intro habs hascii
    show Response.redirect 302 _ = Response.redirect 302 _
    rw [httpRedirect_absolute_ascii env c _ habs hascii]

/-- Claim C1 (amended) at the working deployment `env0`. -/
theorem C1_success_redirect_witness :
    (GetCallback env0 db0 req0).trace.filter Event.isSave =
        [.dbSave { login0 with CID := 1234567, Code := code32 }]
    ∧ ({ login0 with CID := 1234567, Code := code32 } : OAuthLogin).Code.length = 32
    ∧ (GetCallback env0 db0 req0).db = db0.save env0 { login0 with CID := 1234567, Code := code32 }
    ∧ { login0 with CID := 1234567, Code := code32 } ∈ (GetCallback env0 db0 req0).db.logins
    ∧ (GetCallback env0 db0 req0).trace.filter Event.isRedirect =
        [.redirect 302 (login0.RedirectURI ++ "?code=" ++ code32 ++ "&state=" ++ login0.State)]
    ∧ (GetCallback env0 db0 req0).response =
        .redirect 302 (httpRedirect env0 req0
          (login0.RedirectURI ++ "?code=" ++ code32 ++ "&state=" ++ login0.State))
    ∧ ((∀ u, env0.urlParse (login0.RedirectURI ++ "?code=" ++ code32 ++ "&state=" ++ login0.State)
            = .ok u → u.Scheme ≠ "" ∨ u.Host ≠ "") →
        (∀ ch ∈ (login0.RedirectURI ++ "?code=" ++ code32 ++ "&state=" ++ login0.State).toList,
            ch.toNat < 128) →
        (GetCallback env0 db0 req0).response =
          .redirect 302 (login0.RedirectURI ++ "?code=" ++ code32 ++ "&state=" ++ login0.State)) :=
  C1_success_redirect env0 db0 req0 "authcode" "tok-1" code32 login0 1234567
    { CID := 1234567, FullName := "Pat Doe" }
    (by decide) (by decide) (by decide) (by decide) (by decide) (by decide) rfl (by decide)
    (by decide)

/-- Claim C1 as stated fails, at four validated callbacks whose exchange
confirms CID 1234567, which the roster holds.  When the code generator fails,
the record is saved with an empty code, not a 32-character one.  When the
save fails, the table afterwards is the table before: the record is not
saved, with neither the user ID nor the code.  When the stored redirect
address has a non-ASCII letter, the `Location` of the response has it
percent-escaped and is not the stored bytes followed by code and state.
When the stored redirect address is relative, the `Location` is joined to
the directory of the request path, so that two requests differing in their
path only get different targets. -/
theorem C1_counterexample :
    (req0.GetQuery "code" = some "authcode"
      ∧ req0.Cookie "sso_token" = some "tok-1"
      ∧ db0.firstLogin "tok-1" (envNoCode.now + Minute * 5) = some login0
      ∧ login0.UserAgent = req0.UserAgent
      ∧ (exchange envNoCode "authcode" (returnUri req0)).1
          = .sent { cid := 1234567, err := none }
      ∧ db0.firstUser 1234567 = some { CID := 1234567, FullName := "Pat Doe" })
    ∧ ((GetCallback envNoCode db0 req0).trace.filter Event.isSave =
          [.dbSave { login0 with CID := 1234567, Code := "" }]
      ∧ ({ login0 with CID := 1234567, Code := "" } : OAuthLogin).Code.length ≠ 32
      ∧ (GetCallback envNoCode db0 req0).response =
          .redirect 302 "https://app.example.org/login?code=&state=xyz")
    ∧ ((exchange envSaveFails "authcode" (returnUri req0)).1
          = .sent { cid := 1234567, err := none }
      ∧ (envSaveFails.gonanoidNew 32) = (code32, none)
      ∧ (GetCallback envSaveFails db0 req0).db.logins = [login0]
      ∧ login0.CID = 0 ∧ login0.Code = ""
      ∧ (GetCallback envSaveFails db0 req0).response.isRedirect = true)
    ∧ (dbAccent.firstLogin "tok-1" (env0.now + Minute * 5)
          = some { login0 with RedirectURI := "https://app.example.org/café" }
      ∧ (GetCallback env0 dbAccent req0).response =
          .redirect 302
            "https://app.example.org/caf%c3%a9?code=0123456789abcdefghijklmnopqrstuv&state=xyz"
      ∧ (GetCallback env0 dbAccent req0).response ≠
          .redirect 302
            ("https://app.example.org/café" ++ "?code=" ++ code32 ++ "&state=" ++ "xyz"))
    ∧ (dbRelative.firstLogin "tok-1" (envRelative.now + Minute * 5)
          = some { login0 with RedirectURI := "login" }
      ∧ (GetCallback envRelative dbRelative req0).response =
          .redirect 302 "/oauth/login?code=0123456789abcdefghijklmnopqrstuv&state=xyz"
      ∧ (GetCallback envRelative dbRelative { req0 with Path := "/v1/callback" }).response =
          .redirect 302 "/v1/login?code=0123456789abcdefghijklmnopqrstuv&state=xyz") := by
  refine ⟨by decide, by decide, by decide, by decide, by decide⟩

/-! ## Empty access token -/

/-- When the token response decodes to an empty `access_token`, the goroutine
sends the error `No access token received` right after the token exchange. -/
theorem exchange_empty_token (env : Env) (code uri json body : String)
    (resp : HTTPResponse) (tok : VatsimAccessToken)
    (hm : env.jsonMarshal (formData env code uri) = .ok json)
    (hp : env.httpPost (tokenUrl env) "application/json" json = .ok resp)
    (hb : resp.Body = .ok body)
    (hd : env.unmarshalAccessToken body = .ok tok)
    (he : tok.AccessToken = "") :
    exchange env code uri =
      send [.tokenPost (tokenUrl env) json] { cid := 0, err := some "No access token received" } := by
  unfold exchange
  simp only [hm, hp, hb, hd, he, if_true]

/-- Claim C8.  On a validated callback whose token response is read and
decodes to an empty (or absent) `access_token`, the response is the
UpstreamError page; the run is the login lookup, the token exchange, the send
of the error and the `handleError` call: the profile fetch is not issued, the
roster is not consulted, nothing is saved and the database is unchanged. -/
theorem C8_empty_access_token (env : Env) (db : Store) (c : Request)
    (code cstate json body : String) (login : OAuthLogin)
    (resp : HTTPResponse) (tok : VatsimAccessToken)
    (hcode : c.GetQuery "code" = some code)
    (hcookie : c.Cookie "sso_token" = some cstate)
    (hfind : db.firstLogin cstate (env.now + Minute * 5) = some login)
    (hua : login.UserAgent = c.UserAgent)
    (hm : env.jsonMarshal (formData env code (returnUri c)) = .ok json)
    (hp : env.httpPost (tokenUrl env) "application/json" json = .ok resp)
    (hb : resp.Body = .ok body)
    (hd : env.unmarshalAccessToken body = .ok tok)
    (he : tok.AccessToken = "") :
    (GetCallback env db c).response = .errorPage msgUpstream
    ∧ (GetCallback env db c).response.kind = some .UpstreamError
    ∧ (GetCallback env db c).trace =
        [.dbFirstLogin cstate (env.now + Minute * 5), .tokenPost (tokenUrl env) json,
         .chanSend { cid := 0, err := some "No access token received" },
         .handleError msgUpstream]
    ∧ (∀ e ∈ (GetCallback env db c).trace,
        e.isProfileGet = false ∧ e.isRosterLookup = false ∧ e.isSave = false
        ∧ e.isRedirect = false)
    ∧ (GetCallback env db c).db = db := by
  have hout := GetCallback_validated env db c code cstate login hcode hcookie hfind hua
  rw [exchange_empty_token env code (returnUri c) json body resp tok hm hp hb hd he] at hout
  simp only [send, ne_eq, reduceCtorEq, not_false_eq_true, if_true, handleError] at hout
  rw [hout]
  refine ⟨rfl, kind_upstream, by simp, ?_, rfl⟩
  intro e hmem
  simp only [List.append_assoc, List.cons_append, List.nil_append, List.mem_cons,
    List.mem_singleton, List.not_mem_nil, or_false] at hmem
  rcases hmem with h | h | h | h <;> subst h <;> exact ⟨rfl, rfl, rfl, rfl⟩

/-- Claim C8 at a token response without an access token. -/
theorem C8_empty_access_token_witness :
    (GetCallback envNoToken db0 req0).response = .errorPage msgUpstream
    ∧ (GetCallback envNoToken db0 req0).response.kind = some .UpstreamError
    ∧ (GetCallback envNoToken db0 req0).trace =
        [.dbFirstLogin "tok-1" (envNoToken.now + Minute * 5), .tokenPost (tokenUrl envNoToken) "form",
         .chanSend { cid := 0, err := some "No access token received" },
         .handleError msgUpstream]
    ∧ (∀ e ∈ (GetCallback envNoToken db0 req0).trace,
        e.isProfileGet = false ∧ e.isRosterLookup = false ∧ e.isSave = false
        ∧ e.isRedirect = false)
    ∧ (GetCallback envNoToken db0 req0).db = db0 :=
  C8_empty_access_token envNoToken db0 req0 "authcode" "tok-1" "form" "token-json" login0
    { StatusCode := 200, Body := .ok "token-json" } ⟨""⟩
    (by decide) (by decide) (by decide) (by decide) rfl rfl rfl rfl rfl

/-! ## Provider failures and HTTP status -/

/-- The goroutine never looks at a status code. -/
theorem exchange_withStatuses (env : Env) (f g : Nat → Nat) (code uri : String) :
    exchange (env.withStatuses f g) code uri = exchange env code uri := by
  unfold exchange
  simp only [Env.withStatuses, tokenUrl, formData, userUrl]
  cases env.jsonMarshal _ with
  | error e => rfl
  | ok json =>
    simp only []
    cases env.httpPost _ _ json with
    | error e => rfl
    | ok resp =>
      simp only []
      cases resp.Body with
      | error e => rfl
      | ok body =>
        simp only []
        cases env.unmarshalAccessToken body with
        | error e => rfl
        | ok tok =>
          simp only []
          split
          · rfl
          · cases env.httpNewRequest _ _ with
            | error e => rfl
            | ok rq =>
              simp only []
              cases env.httpDo _ with
              | error e => rfl
              | ok resp2 => rfl

/-- The handler never looks at a status code either. -/
theorem GetCallback_withStatuses (env : Env) (f g : Nat → Nat) (db : Store) (c : Request) :
    GetCallback (env.withStatuses f g) db c = GetCallback env db c := by
  unfold GetCallback
  simp only [exchange_withStatuses]
  rfl

/-- Claim C6, amended.  On a validated callback whose provider exchange
delivers an error (a transport failure, an unreadable or undecodable body on
either call, or an empty access token), the response is the UpstreamError
page, the database is unchanged and the run has no roster lookup, save or
redirect.  The HTTP status of the provider responses is not inspected:
changing the status codes in any way leaves the whole run as it is, so a
non-2xx response is handled as a 2xx response with the same body is. -/
theorem C6_upstream_error (env : Env) (db : Store) (c : Request)
    (code cstate : String) (login : OAuthLogin) (r : Result) (f g : Nat → Nat)
    (hcode : c.GetQuery "code" = some code)
    (hcookie : c.Cookie "sso_token" = some cstate)
    (hfind : db.firstLogin cstate (env.now + Minute * 5) = some login)
    (hua : login.UserAgent = c.UserAgent)
    (hex : (exchange env code (returnUri c)).1 = .sent r)
    (herr : r.err ≠ none) :
    (GetCallback env db c).response = .errorPage msgUpstream
    ∧ (GetCallback env db c).response.kind = some .UpstreamError
    ∧ (GetCallback env db c).db = db
    ∧ (∀ e ∈ (GetCallback env db c).trace,
        e.isRosterLookup = false ∧ e.isSave = false ∧ e.isRedirect = false)
    ∧ GetCallback (env.withStatuses f g) db c = GetCallback env db c := by
  have hev := exchange_events env code (returnUri c)
  have hout := GetCallback_validated env db c code cstate login hcode hcookie hfind hua
  rcases hx : exchange env code (returnUri c) with ⟨d, evs⟩
  rw [hx] at hex hev
  simp only at hex hev
  subst hex
  rw [hx] at hout
  simp only [] at hout
  rw [if_pos herr] at hout
  simp only [handleError] at hout
  refine ⟨?_, ?_, ?_, ?_, GetCallback_withStatuses env f g db c⟩
  · rw [hout]
  · rw [hout]; exact kind_upstream
  · rw [hout]
  · rw [hout]
    intro e he
    simp only [List.mem_append, List.mem_cons, List.mem_singleton, List.not_mem_nil,
      or_false] at he
    rcases he with (he | he) | he
    · subst he; exact ⟨rfl, rfl, rfl⟩
    · obtain ⟨-, h2, h3, h4, -⟩ := hev e he
      exact ⟨h2, h3, h4⟩
    · subst he; exact ⟨rfl, rfl, rfl⟩

/-- Claim C6 (amended) at a 502 token response that does not decode. -/
theorem C6_upstream_error_witness :
    (GetCallback envBadGateway db0 req0).response = .errorPage msgUpstream
    ∧ (GetCallback envBadGateway db0 req0).response.kind = some .UpstreamError
    ∧ (GetCallback envBadGateway db0 req0).db = db0
    ∧ (∀ e ∈ (GetCallback envBadGateway db0 req0).trace,
        e.isRosterLookup = false ∧ e.isSave = false ∧ e.isRedirect = false)
    ∧ GetCallback (envBadGateway.withStatuses (fun _ => 200) (fun _ => 200)) db0 req0
        = GetCallback envBadGateway db0 req0 :=
  C6_upstream_error envBadGateway db0 req0 "authcode" "tok-1" login0
    { cid := 0, err := some "invalid character looking for beginning of value" }
    (fun _ => 200) (fun _ => 200)
    (by decide) (by decide) (by decide) (by decide) (by decide) (by decide)

/-- Claim C6 as stated fails.  On the validated callback `req0`: when the
profile fetch receives the non-2xx response `resp401`, the roster is looked
up (for CID 0) and the result is the NotAuthorized page, not the
UpstreamError; when the token exchange receives the non-2xx response
`resp500`, the record is saved and the response is a 302 redirect. -/
theorem C6_counterexample :
    (req0.GetQuery "code" = some "authcode"
      ∧ req0.Cookie "sso_token" = some "tok-1"
      ∧ db0.firstLogin "tok-1" (env401.now + Minute * 5) = some login0
      ∧ login0.UserAgent = req0.UserAgent)
    ∧ (Event.profileGet profileRequest0 ∈ (GetCallback env401 db0 req0).trace
      ∧ (∃ resp, env401.httpDo profileRequest0 = .ok resp ∧ is2xx resp.StatusCode = false)
      ∧ (GetCallback env401 db0 req0).response = .errorPage msgNotAuthorized
      ∧ (GetCallback env401 db0 req0).response ≠ .errorPage msgUpstream
      ∧ Event.dbFirstUser 0 ∈ (GetCallback env401 db0 req0).trace)
    ∧ (Event.tokenPost (tokenUrl env500) "form" ∈ (GetCallback env500 db0 req0).trace
      ∧ (∃ resp, env500.httpPost (tokenUrl env500) "application/json" "form" = .ok resp
          ∧ is2xx resp.StatusCode = false)
      ∧ (GetCallback env500 db0 req0).response.isRedirect = true
      ∧ (GetCallback env500 db0 req0).trace.countP Event.isSave = 1) := by
  refine ⟨by decide, ⟨by decide, ⟨resp401, rfl, rfl⟩, by decide, by decide, by decide⟩,
    ⟨by decide, ⟨resp500, rfl, rfl⟩, by decide, by decide⟩⟩

/-! ## The validity window -/

/-- A state token that no row of the table carries gets the InvalidToken page
`Token is invalid.`, with nothing but the lookup before it. -/
theorem unknown_token_rejected (env : Env) (db : Store) (c : Request) (code cstate : String)
    (hcode : c.GetQuery "code" = some code)
    (hcookie : c.Cookie "sso_token" = some cstate)
    (habsent : ∀ l ∈ db.logins, l.Token ≠ cstate) :
    GetCallback env db c =
      { response := .errorPage msgTokenInvalid,
        trace := [.dbFirstLogin cstate (env.now + Minute * 5), .handleError msgTokenInvalid],
        db := db } := by
  have hnone : db.firstLogin cstate (env.now + Minute * 5) = none :=
    (firstLogin_eq_none_iff db cstate _).mpr fun l hl ht => absurd ht (habsent l hl)
  unfold GetCallback
  simp [hcode, hcookie, hnone, handleError]

/-- The time condition of the lookup, `created_at < now + 5 minutes`, holds
for every record that was not created in the future, however old it is. -/
theorem window_never_closes (env : Env) (l : OAuthLogin) (h : l.CreatedAt ≤ env.now) :
    l.CreatedAt < env.now + Minute * 5 := by
  unfold Minute
  omega

/-- Claim C3, the code at the failing input.  The record `login0` is a day
old, far more than five minutes, and the lookup still returns it: the
callback is answered with the 302 redirect, not with the InvalidToken page. -/
theorem C3_expired_token_accepted :
    login0.CreatedAt + 5 * Minute < envLate.now
    ∧ db0.firstLogin "tok-1" (envLate.now + Minute * 5) = some login0
    ∧ (GetCallback envLate db0 req0).response =
        .redirect 302 "https://app.example.org/login?code=0123456789abcdefghijklmnopqrstuv&state=xyz"
    ∧ (GetCallback envLate db0 req0).response ≠ .errorPage msgTokenInvalid := by
  decide

/-! ## Replay of a finalized token -/

/-- Claim C2, the code at the failing input.  The first callback finalizes
the record (CID and code written) and redirects; a second callback with the
same token and user-agent, run on the database the first one left, redirects
again and overwrites the one-time code. -/
theorem C2_replay_redirects_again :
    (GetCallback env0 db0 req0).response =
        .redirect 302 "https://app.example.org/login?code=0123456789abcdefghijklmnopqrstuv&state=xyz"
    ∧ (GetCallback env0 db0 req0).db.logins = [{ login0 with CID := 1234567, Code := code32 }]
    ∧ (GetCallback envReplay (GetCallback env0 db0 req0).db req0).response =
        .redirect 302 "https://app.example.org/login?code=ABCDEFGHIJKLMNOPQRSTUVWXYZ_-0123&state=xyz"
    ∧ (GetCallback envReplay (GetCallback env0 db0 req0).db req0).db.logins =
        [{ login0 with CID := 1234567, Code := code32b }] := by
  decide

/-! ## Failures during finalization -/

/-- Claim C7, the code at the failing inputs.  When `gonanoid.New` fails the
handler saves the empty code and redirects with it; when `Save` fails the
handler redirects with a code that the database does not hold.  Neither run
ends in an error page. -/
theorem C7_finalization_errors_ignored :
    (envNoCode.gonanoidNew 32).2 ≠ none
    ∧ (GetCallback envNoCode db0 req0).response =
        .redirect 302 "https://app.example.org/login?code=&state=xyz"
    ∧ envSaveFails.dbSaveFails { login0 with CID := 1234567, Code := code32 } = true
    ∧ (GetCallback envSaveFails db0 req0).response =
        .redirect 302 "https://app.example.org/login?code=0123456789abcdefghijklmnopqrstuv&state=xyz"
    ∧ (GetCallback envSaveFails db0 req0).db = db0 := by
  decide

/-! ## Delivery of the exchange result -/

/-- Claim C10, the code at the failing input.  When `http.NewRequest` fails
after a successful token exchange, the goroutine panics on the nil request:
it ends without any send on the channel, and the handler produces no
response. -/
theorem C10_newRequest_failure_panics :
    exchange envBadUserPath "authcode" (returnUri req0) =
      (.panicked, [.tokenPost "https://auth.vatsim.net/oauth/token" "form", .goroutinePanic])
    ∧ (exchange envBadUserPath "authcode" (returnUri req0)).2.countP Event.isSend = 0
    ∧ (GetCallback envBadUserPath db0 req0).response = .crashed := by
  decide

/-- Apart from that case the goroutine behaves as intended: when
`http.NewRequest` does not fail, exactly one `Result` is sent. -/
theorem exchange_sends_once (env : Env) (code uri : String)
    (hreq : ∀ e, env.httpNewRequest "GET" (userUrl env) ≠ .error e) :
    (∃ r, (exchange env code uri).1 = .sent r)
    ∧ (exchange env code uri).2.countP Event.isSend = 1 := by
  unfold exchange
  simp only []
  repeat' split
  all_goals first
    | exact ⟨⟨_, rfl⟩, rfl⟩
    | (rename_i e h; exact absurd h (hreq _))

/-- The goroutine panics only when the token exchange succeeded with a
non-empty token and `http.NewRequest` failed. -/
theorem exchange_panicked_imp (env : Env) (code uri : String)
    (h : (exchange env code uri).1 = .panicked) :
    ∃ e, env.httpNewRequest "GET" (userUrl env) = .error e := by
  by_contra hne
  have hne2 : ∀ e, env.httpNewRequest "GET" (userUrl env) ≠ .error e :=
    fun e he => hne ⟨e, he⟩
  obtain ⟨⟨r, hr⟩, -⟩ := exchange_sends_once env code uri hne2
  rw [hr] at h
  exact Delivery.noConfusion h

/-- The goroutine delivers the ID `cid` without error exactly when every step
succeeds, the access token is not empty and the profile decodes to `cid`. -/
theorem exchange_sent_ok_iff (env : Env) (code uri : String) (cid : Int) :
    (exchange env code uri).1 = .sent { cid := cid, err := none } ↔
      ∃ json resp body tok rq resp2 body2 v,
        env.jsonMarshal (formData env code uri) = .ok json
        ∧ env.httpPost (tokenUrl env) "application/json" json = .ok resp
        ∧ resp.Body = .ok body
        ∧ env.unmarshalAccessToken body = .ok tok
        ∧ tok.AccessToken ≠ ""
        ∧ env.httpNewRequest "GET" (userUrl env) = .ok rq
        ∧ env.httpDo { rq with
            Header := rq.Header ++ [("Authorization", "Bearer " ++ tok.AccessToken)] } = .ok resp2
        ∧ resp2.Body = .ok body2
        ∧ env.unmarshalVatsimResponse body2 = .ok v
        ∧ v.Data.CID = cid := by
  constructor
  · intro h
    unfold exchange at h
    simp only [] at h
    repeat' split at h
    all_goals
      simp only [send, Delivery.sent.injEq, Result.mk.injEq, reduceCtorEq, and_false,
        and_true] at h
    rename_i h1 _ _ h2 _ _ h3 _ _ h4 h5 _ _ h6 _ _ h7 _ _ h8 _ _ h9
    exact ⟨_, _, _, _, _, _, _, _, h1, h2, h3, h4, h5, h6, h7, h8, h9, h⟩
  · rintro ⟨json, resp, body, tok, rq, resp2, body2, v, h1, h2, h3, h4, h5, h6, h7, h8, h9, h10⟩
    unfold exchange
    simp only [h1, h2, h3, h4, h5, h6, h7, h8, h9, h10, if_false, send]

end SSO
